import Mathlib

/-!
A shallow embedding of parsl/data_provider/globus.py.

The module drives the Globus SDK: it loads or interactively obtains an OAuth2
credential bundle, seeds a refreshing authorizer from it, and submits and polls
file-transfer jobs.  All interactions with the outside world (the token file on
disk, the interactive login exchange, the Globus Transfer service) are modelled
as oracle values supplied through environment records; the control flow, the
truthiness tests, the message formatting and the logging of the Python source
are transcribed faithfully.
-/

namespace ParslGlobus

/-- One per-resource-server token record, the shape stored in the credential
bundle that json.dump writes to the .globus.json file. -/
structure TokenRecord where
  access_token : String
  refresh_token : String
  expires_at_seconds : Nat
deriving DecidableEq

/-- A credential bundle: the mapping from resource-server name to token record
returned by token_response.by_resource_server and persisted on disk.  Modelled
as an association list, preserving insertion order exactly as a Python dict. -/
abbrev TokenBundle := List (String × TokenRecord)

/-- Python dict lookup tokens[k]: first matching key, none where Python raises
KeyError. -/
def bundleLookup : TokenBundle → String → Option TokenRecord
  | [], _ => none
  | (k, r) :: rest, key => if k = key then some r else bundleLookup rest key

/-- The RefreshTokenAuthorizer as seeded in _get_native_app_authorizer: the
refresh token, access token and expiry taken from the transfer token record. -/
structure Authorizer where
  refresh_token : String
  access_token : String
  expires_at_seconds : Nat
deriving DecidableEq

/- JSON serialization of the credential bundle, mirroring json.dump with the
default separators.  Braces are written with hex escapes throughout. -/

/-- The opening brace character of a JSON object. -/
def lbrace : Char := Char.ofNat 123

/-- The closing brace character of a JSON object. -/
def rbrace : Char := Char.ofNat 125

/-- The comma separating JSON object members. -/
def commaChar : Char := Char.ofNat 44

/-- The double-quote character delimiting JSON strings. -/
def quoteChar : Char := Char.ofNat 34

/-- The space following a comma in json.dump output with default separators. -/
def spaceChar : Char := Char.ofNat 32

/-- A JSON string literal (the token strings the module handles contain no
characters needing escapes). -/
def jstr (s : String) : String := "\"" ++ s ++ "\""

/-- The json.dump rendering of one token record. -/
def encodeRecord (r : TokenRecord) : String :=
  "\x7b\"access_token\": " ++ jstr r.access_token ++
    ", \"refresh_token\": " ++ jstr r.refresh_token ++
    ", \"expires_at_seconds\": " ++ toString r.expires_at_seconds ++ "\x7d"

/-- The json.dump rendering of the members of a bundle, comma separated. -/
def encodeEntries : TokenBundle → String
  | [] => ""
  | [(k, r)] => jstr k ++ ": " ++ encodeRecord r
  | (k, r) :: rest => jstr k ++ ": " ++ encodeRecord r ++ ", " ++ encodeEntries rest

/-- The json.dump rendering of a whole credential bundle, as written to the
token file by _save_tokens_to_file. -/
def encodeBundle (b : TokenBundle) : String :=
  "\x7b" ++ encodeEntries b ++ "\x7d"

/-- Consume an expected literal character sequence from the input. -/
def dropLit : List Char → List Char → Option (List Char)
  | [], cs => some cs
  | l :: ls, c :: cs => if c = l then dropLit ls cs else none
  | _ :: _, [] => none

/-- Parse a JSON string literal: a quote, characters up to the next quote, and
the closing quote. -/
def parseQuoted (cs : List Char) : Option (String × List Char) :=
  match cs with
  | c :: rest =>
    if c = quoteChar then
      let s := rest.takeWhile (fun x => x ≠ quoteChar)
      match rest.drop s.length with
      | d :: r => if d = quoteChar then some (String.mk s, r) else none
      | [] => none
    else none
  | [] => none

/-- Numeric value of a list of decimal digits. -/
def digitsToNat (ds : List Char) : Nat :=
  ds.foldl (fun acc c => acc * 10 + (c.toNat - 48)) 0

/-- Parse one token record object as laid out by encodeRecord. -/
def parseRecord (cs : List Char) : Option (TokenRecord × List Char) := do
  let cs ← dropLit ("\x7b\"access_token\": ").data cs
  let (a, cs) ← parseQuoted cs
  let cs ← dropLit (", \"refresh_token\": ").data cs
  let (r, cs) ← parseQuoted cs
  let cs ← dropLit (", \"expires_at_seconds\": ").data cs
  let ds := cs.takeWhile Char.isDigit
  let rest := cs.drop ds.length
  if ds.isEmpty then none else
  match rest with
  | c :: r2 => if c = rbrace then some (⟨a, r, digitsToNat ds⟩, r2) else none
  | [] => none

/-- Parse the comma-separated members of a bundle object up to and including
the closing brace; the fuel argument bounds the recursion by input length. -/
def parsePairs : Nat → List Char → Option (TokenBundle × List Char)
  | 0, _ => none
  | fuel+1, cs => do
    let (k, cs) ← parseQuoted cs
    let cs ← dropLit (": ").data cs
    let (r, cs) ← parseRecord cs
    match cs with
    | c :: rest =>
      if c = rbrace then some ([(k, r)], rest)
      else if c = commaChar then
        match rest with
        | c2 :: rest2 =>
          if c2 = spaceChar then do
            let (tail, cs2) ← parsePairs fuel rest2
            some ((k, r) :: tail, cs2)
          else none
        | [] => none
      else none
    | [] => none

/-- Parse a serialized credential bundle back into its mapping, the inverse of
encodeBundle (models re-reading the written JSON with json.load). -/
def decodeBundle (s : String) : Option TokenBundle :=
  match s.data with
  | c :: rest =>
    if c = lbrace then
      if rest = [rbrace] then some []
      else
        match parsePairs rest.length rest with
        | some (b, r) => if r = [] then some b else none
        | _ => none
    else none
  | [] => none

/- The token/authorizer manager. -/

/-- The outcomes of the external interactions of _get_native_app_authorizer:
the result of reading and parsing TOKEN_FILE (error carries the raised
exception), the result of the interactive code-for-tokens exchange, and
whether writing TOKEN_FILE succeeds. -/
structure AuthEnv where
  load_result : Except String TokenBundle
  exchange_result : Except String TokenBundle
  save_ok : Bool

/-- What _get_native_app_authorizer produced: its return value or raised
exception, whether the interactive login path ran, and the exact text written
to the token file (none when nothing was written or the write failed). -/
structure AuthOutcome where
  result : Except String Authorizer
  interactive : Bool
  written : Option String

/-- Models transfer_tokens = tokens[resource key] followed by the
RefreshTokenAuthorizer construction; a bundle without the key raises
KeyError exactly as the Python subscript does. -/
def buildAuthorizer (tokens : TokenBundle) : Except String Authorizer :=
  match bundleLookup tokens "transfer.api.globus.org" with
  | none => Except.error "KeyError: transfer.api.globus.org"
  | some tt => Except.ok ⟨tt.refresh_token, tt.access_token, tt.expires_at_seconds⟩

/-- Models _do_native_app_authentication: print the authorize URL, read the
auth code, exchange it, and return token_response.by_resource_server.  The
console traffic has no bearing on any observable modelled here; the outcome of
the exchange is the oracle value. -/
def _do_native_app_authentication (exchange_result : Except String TokenBundle) :
    Except String TokenBundle :=
  exchange_result

/-- Models _save_tokens_to_file(TOKEN_FILE, tokens): returns the file content
written, or none when the write raises (the caller swallows that failure). -/
def _save_tokens_to_file (save_ok : Bool) (tokens : TokenBundle) : Option String :=
  if save_ok then some (encodeBundle tokens) else none

/-- The interactive branch of _get_native_app_authorizer: run the login flow,
attempt to persist the bundle (failure swallowed), then seed the authorizer
from the same bundle value. -/
def interactiveFlow (exchange_result : Except String TokenBundle) (save_ok : Bool) :
    AuthOutcome :=
  match _do_native_app_authentication exchange_result with
  | Except.error e => ⟨Except.error e, true, none⟩
  | Except.ok tokens =>
      ⟨buildAuthorizer tokens, true, _save_tokens_to_file save_ok tokens⟩

/-- Models _get_native_app_authorizer: try to load the cached bundle, swallow
any load failure; if the loaded value is falsy (None after a failed load, or an
empty dict) run the interactive flow; finally seed the authorizer from the
bundle in hand. -/
def _get_native_app_authorizer (env : AuthEnv) : AuthOutcome :=
  match env.load_result with
  | Except.error _ => interactiveFlow env.exchange_result env.save_ok
  | Except.ok tokens =>
      if tokens.isEmpty then interactiveFlow env.exchange_result env.save_ok
      else ⟨buildAuthorizer tokens, false, none⟩

/-- The observable outcome of Globus.init: the class-level authorizer state
after the call, whether _get_native_app_authorizer was invoked, and the
exception it propagated, if any. -/
structure InitResult where
  authorizer : Option Authorizer
  performed : Bool
  raised : Option String
deriving DecidableEq

/-- Models Globus.init: if cls.authorizer is already set (a non-None object is
always truthy) return immediately; otherwise run _get_native_app_authorizer and
assign the result, leaving the state unset when that call raises. -/
def Globus.init (authorizer : Option Authorizer) (env : AuthEnv) : InitResult :=
  match authorizer with
  | some a => ⟨some a, false, none⟩
  | none =>
      match (_get_native_app_authorizer env).result with
      | Except.ok a => ⟨some a, true, none⟩
      | Except.error e => ⟨none, true, some e⟩

/-- Models Globus.get_authorizer: returns the class-level state unchanged. -/
def Globus.get_authorizer (authorizer : Option Authorizer) : Option Authorizer :=
  authorizer

/- The transfer client. -/

/-- Severity of an emitted log record; only the two levels the transfer path
uses are modelled. -/
inductive LogLevel where
  | warning
  | debug
deriving DecidableEq

/-- One emitted log record: its level and formatted message. -/
structure LogEntry where
  level : LogLevel
  msg : String
deriving DecidableEq

/-- The fields of a Globus transfer task response that the module reads. -/
structure Task where
  task_id : String
  status : String
deriving DecidableEq

/-- The fields of a Globus error event that the module reads; the time field
can be absent (None) in the service response. -/
structure Event where
  time : Option String
  description : String
  details : String
deriving DecidableEq

/-- Oracle for the Globus Transfer service as seen through one transfer_file
call: the outcome of submit_transfer, the result of the n-th
task_wait(task_id, timeout, polling_interval) call as a function of those two
arguments and the call index, the task and the data list of the is_error
filtered event listing fetched in the n-th polling iteration (possibly empty:
the subscript events.data[0] then raises IndexError), and the final task and
error event fetched after the loop exits (final_event models events.data[0]
of the final listing in the failure branch, where a FAILED task reports at
least one error event). -/
structure TransferService where
  submit : Except String Task
  wait : Nat → Nat → Nat → Bool
  poll_task : Nat → Task
  poll_events : Nat → List Event
  final_task : Task
  final_event : Event

/-- The message of the exception wrapping a submit_transfer failure. -/
def submitFailMsg (src_ep dst_ep src_path dst_path cause : String) : String :=
  "Globus transfer from " ++ src_ep ++ src_path ++ " to " ++ dst_ep ++ dst_path ++
    " failed due to error: " ++ cause

/-- How Python str-formats the time field of an event: the string itself, or
None when absent. -/
def optTimeStr : Option String → String
  | none => "None"
  | some s => s

/-- The warning logged for a non-critical mid-flight error event. -/
def eventWarnMsg (src_ep src_path : String) (e : Event) : String :=
  "Non-critical Globus Transfer error event for globus://" ++ src_ep ++ src_path ++
    ": \"" ++ e.description ++ "\" at " ++ optTimeStr e.time ++ ". Retrying..."

/-- The debug record accompanying a mid-flight error event warning. -/
def eventDebugMsg (e : Event) : String :=
  "Globus Transfer error details: " ++ e.details

/-- The debug message logged when a transfer reaches SUCCEEDED. -/
def successMsg (tid src_ep dst_ep src_path dst_path : String) : String :=
  "Globus transfer " ++ tid ++ ", from " ++ src_ep ++ src_path ++ " to " ++
    dst_ep ++ dst_path ++ " succeeded"

/-- The message of the exception raised when a transfer terminates without
reaching SUCCEEDED. -/
def failMsg (tid src_ep dst_ep src_path dst_path det : String) : String :=
  "Globus transfer " ++ tid ++ ", from " ++ src_ep ++ src_path ++ " to " ++
    dst_ep ++ dst_path ++ " failed due to error: \"" ++ det ++ "\""

/-- The str rendering of a task response object in the debug record of the
failure branch; the library-defined repr is opaque, modelled from the fields
the embedding carries. -/
def taskStr (t : Task) : String :=
  "Task(" ++ t.task_id ++ ", " ++ t.status ++ ")"

/-- The debug record logged before raising on a non-SUCCEEDED terminal task. -/
def taskDebugMsg (t : Task) : String :=
  "Globus Transfer task: " ++ taskStr t

/-- The handling of one fetched error event (the head of the listing): if its
time field differs from last_event_time, update last_event_time and emit the
warning and the debug record, else emit nothing.  Returns the new
last_event_time and the records emitted. -/
def pollStep (src_ep src_path : String) (event : Event)
    (last : Option String) : Option String × List LogEntry :=
  if event.time ≠ last then
    (event.time,
      [⟨LogLevel.warning, eventWarnMsg src_ep src_path event⟩,
       ⟨LogLevel.debug, eventDebugMsg event⟩])
  else (last, [])

/-- The message of the exception that events.data[0] raises on an empty
listing. -/
def indexErrorMsg : String := "IndexError: list index out of range"

/-- How a finite observation of the polling loop ended: the loop exited
normally because task_wait returned true, or the iteration body raised an
uncaught IndexError subscripting an empty error-event listing.  Either way the
log emitted up to that point is carried along. -/
inductive PollResult where
  | finished (logs : List LogEntry)
  | crashed (logs : List LogEntry) (msg : String)
deriving DecidableEq

/-- The while-not-task_wait loop: each iteration first calls
task_wait(task_id, 60, 15); when it returns true the loop exits with the log
emitted so far, otherwise the body re-fetches the task, subscripts the
is_error filtered event listing — raising IndexError when it is empty — and
runs pollStep on the fetched event.  The fuel argument bounds how many
iterations the model is allowed to observe; none means the loop was still
running when fuel ran out (the source enforces no local bound of its own). -/
def pollLoop (src_ep src_path : String) (svc : TransferService) :
    Nat → Nat → Task → Option String → List LogEntry → Option PollResult
  | 0, _, _, _, _ => none
  | fuel+1, n, _task, last, logs =>
    if svc.wait 60 15 n then some (PollResult.finished logs)
    else
      let task' := svc.poll_task n
      match svc.poll_events n with
      | [] => some (PollResult.crashed logs indexErrorMsg)
      | event :: _ =>
        let step := pollStep src_ep src_path event last
        pollLoop src_ep src_path svc fuel (n+1) task' step.1 (logs ++ step.2)

deriving instance DecidableEq for Except

/-- What one transfer_file call did: whether it returned normally or raised
(with the exception message), and every log record it emitted, in order. -/
structure TransferOutcome where
  result : Except String Unit
  logs : List LogEntry
deriving DecidableEq

/-- Models Globus.transfer_file: build and submit the one-item transfer request
(wrapping any submission exception and raising before any polling), run the
polling loop with last_event_time initialized to None — an IndexError raised
inside the loop body propagates out uncaught — then re-fetch the final status:
SUCCEEDED logs a debug record and returns; anything else logs the task at
debug level, fetches the latest error event and raises.  none means the
polling loop was still running after fuel observed iterations. -/
def Globus.transfer_file (src_ep dst_ep src_path dst_path : String)
    (svc : TransferService) (fuel : Nat) : Option TransferOutcome :=
  match svc.submit with
  | Except.error e =>
      some ⟨Except.error (submitFailMsg src_ep dst_ep src_path dst_path e), []⟩
  | Except.ok task =>
      match pollLoop src_ep src_path svc fuel 0 task none [] with
      | none => none
      | some (PollResult.crashed logs msg) =>
          some ⟨Except.error msg, logs⟩
      | some (PollResult.finished logs) =>
          let task := svc.final_task
          if task.status = "SUCCEEDED" then
            some ⟨Except.ok (),
              logs ++ [⟨LogLevel.debug,
                successMsg task.task_id src_ep dst_ep src_path dst_path⟩]⟩
          else
            let event := svc.final_event
            some ⟨Except.error (failMsg task.task_id src_ep dst_ep src_path dst_path
                event.details),
              logs ++ [⟨LogLevel.debug, taskDebugMsg task⟩]⟩

/-- Whether a log record was emitted at warning level. -/
def isWarning : LogEntry → Bool
  | ⟨LogLevel.warning, _⟩ => true
  | ⟨LogLevel.debug, _⟩ => false

/-- Number of warning-level records in a log. -/
def countWarnings (l : List LogEntry) : Nat :=
  (l.filter isWarning).length

/-- The message hay contains needle as a contiguous substring. -/
def strHas (hay needle : String) : Prop :=
  ∃ l r : List Char, hay.data = l ++ needle.data ++ r

/- Concrete service instances used to evaluate the model on closed inputs. -/

/-- A service whose job leaves ACTIVE immediately and ends FAILED. -/
def svcFailed : TransferService :=
  ⟨Except.ok ⟨"TID", "ACTIVE"⟩, fun _ _ _ => true, fun _ => ⟨"TID", "ACTIVE"⟩,
   fun _ => [⟨some "t0", "d", "x"⟩], ⟨"TID", "FAILED"⟩,
   ⟨some "t1", "endpoint expired", "DETAILS"⟩⟩

/-- A service whose job leaves ACTIVE immediately and ends SUCCEEDED. -/
def svcSucceeded : TransferService :=
  ⟨Except.ok ⟨"TID", "ACTIVE"⟩, fun _ _ _ => true, fun _ => ⟨"TID", "ACTIVE"⟩,
   fun _ => [⟨some "t0", "d", "x"⟩], ⟨"TID", "SUCCEEDED"⟩, ⟨some "t0", "d", "x"⟩⟩

/-- A service whose submission raises. -/
def svcSubmitError : TransferService :=
  ⟨Except.error "endpoint not found", fun _ _ _ => true, fun _ => ⟨"TID", "ACTIVE"⟩,
   fun _ => [⟨some "t0", "d", "x"⟩], ⟨"TID", "FAILED"⟩, ⟨some "t0", "d", "x"⟩⟩

/-- A service whose job stays ACTIVE and reports the same error event, with one
fixed timestamp, on every poll. -/
def svcDedup : TransferService :=
  ⟨Except.ok ⟨"TID", "ACTIVE"⟩, fun _ _ _ => false, fun _ => ⟨"TID", "ACTIVE"⟩,
   fun _ => [⟨some "T", "permission denied", "x"⟩], ⟨"TID", "FAILED"⟩,
   ⟨some "T", "permission denied", "x"⟩⟩

/-- A service whose job stays ACTIVE for one poll round, reporting an error
event with an absent (None) timestamp, then succeeds. -/
def svcNoneTime : TransferService :=
  ⟨Except.ok ⟨"TID", "ACTIVE"⟩, fun _ _ n => decide (0 < n),
   fun _ => ⟨"TID", "ACTIVE"⟩, fun _ => [⟨none, "d", "x"⟩],
   ⟨"TID", "SUCCEEDED"⟩, ⟨none, "d", "x"⟩⟩

/-- A service whose job never leaves ACTIVE and whose is_error filtered event
listing is always empty: a merely slow job with no error events. -/
def svcStuckNoEvents : TransferService :=
  ⟨Except.ok ⟨"TID", "ACTIVE"⟩, fun _ _ _ => false, fun _ => ⟨"TID", "ACTIVE"⟩,
   fun _ => [], ⟨"TID", "ACTIVE"⟩, ⟨some "t0", "d", "x"⟩⟩

/-- Substring containment follows from an explicit decomposition of the
character data. -/
theorem strHas_of_data (hay needle : String) (l r : List Char)
    (h : hay.data = l ++ needle.data ++ r) : strHas hay needle :=
  ⟨l, r, h⟩

/-- Warnings in a concatenated log are counted per part. -/
theorem countWarnings_append (a b : List LogEntry) :
    countWarnings (a ++ b) = countWarnings a + countWarnings b := by
  simp [countWarnings, List.filter_append]

/-- C5 (counterexample): a credential cache file that parses successfully to a
nonempty bundle lacking the transfer-service key does not fall back to the
interactive login path — the loaded bundle is truthy, so the interactive flow
is skipped and initialization raises KeyError at the key extraction. -/
theorem cache_missing_key_skips_interactive :
    (_get_native_app_authorizer ⟨Except.ok [("auth.globus.org", ⟨"A", "R", 1⟩)],
        Except.ok [("transfer.api.globus.org", ⟨"A2", "R2", 2⟩)], true⟩).interactive
      = false ∧
    (Globus.init none ⟨Except.ok [("auth.globus.org", ⟨"A", "R", 1⟩)],
        Except.ok [("transfer.api.globus.org", ⟨"A2", "R2", 2⟩)], true⟩).raised
      = some "KeyError: transfer.api.globus.org" :=
  ⟨rfl, rfl⟩

/-- C5 (amended): whenever reading or parsing the credential cache raises, the
failure is silently swallowed and initialization falls back to the interactive
login path; the outcome is exactly the interactive flow on the remaining
environment, independent of the load error. -/
theorem load_failure_falls_back_interactive (e : String)
    (ex : Except String TokenBundle) (sv : Bool) :
    _get_native_app_authorizer ⟨Except.error e, ex, sv⟩ = interactiveFlow ex sv ∧
    (interactiveFlow ex sv).interactive = true := by
  refine ⟨rfl, ?_⟩
  cases ex <;> rfl

/-- C9: a credential cache that loads successfully but parses to an empty
(falsy) bundle is treated exactly like a failed load: the fallback condition
tests truthiness, so the interactive login flow still runs. -/
theorem empty_bundle_treated_as_no_cache (e : String)
    (ex : Except String TokenBundle) (sv : Bool) :
    _get_native_app_authorizer ⟨Except.ok [], ex, sv⟩ =
      _get_native_app_authorizer ⟨Except.error e, ex, sv⟩ ∧
    (_get_native_app_authorizer ⟨Except.ok [], ex, sv⟩).interactive = true := by
  refine ⟨rfl, ?_⟩
  cases ex <;> rfl

/-- C7: initialization is idempotent and establishes at most one authorizer
per process lifetime: with the authorizer already set, Globus.init returns it
unchanged, performs no work and raises nothing; and after a first successful
initialization every later init call (under any environment) keeps that same
authorizer, which get_authorizer hands to every transfer. -/
theorem init_idempotent_single_authorizer (a : Authorizer) (env env2 : AuthEnv) :
    Globus.init (some a) env2 = ⟨some a, false, none⟩ ∧
    ((Globus.init none env).authorizer = some a →
      Globus.init (Globus.init none env).authorizer env2 = ⟨some a, false, none⟩ ∧
      Globus.get_authorizer (Globus.init none env).authorizer = some a) := by
  refine ⟨rfl, fun h => ⟨?_, h⟩⟩
  rw [h]
  rfl

/-- C7 witness: a first initialization from an interactive login establishes an
authorizer, and a second initialization is a no-op that keeps it. -/
theorem init_idempotent_single_authorizer_w :
    Globus.init (some ⟨"R", "A", 7⟩)
        ⟨Except.error "other", Except.ok [], false⟩ =
      ⟨some ⟨"R", "A", 7⟩, false, none⟩ ∧
    Globus.init (Globus.init none ⟨Except.error "no file",
        Except.ok [("transfer.api.globus.org", ⟨"A", "R", 7⟩)], true⟩).authorizer
        ⟨Except.error "other", Except.ok [], false⟩ =
      ⟨some ⟨"R", "A", 7⟩, false, none⟩ ∧
    Globus.get_authorizer (Globus.init none ⟨Except.error "no file",
        Except.ok [("transfer.api.globus.org", ⟨"A", "R", 7⟩)], true⟩).authorizer =
      some ⟨"R", "A", 7⟩ :=
  ⟨(init_idempotent_single_authorizer ⟨"R", "A", 7⟩
      ⟨Except.error "no file", Except.ok [("transfer.api.globus.org", ⟨"A", "R", 7⟩)], true⟩
      ⟨Except.error "other", Except.ok [], false⟩).1,
   ((init_idempotent_single_authorizer ⟨"R", "A", 7⟩
      ⟨Except.error "no file", Except.ok [("transfer.api.globus.org", ⟨"A", "R", 7⟩)], true⟩
      ⟨Except.error "other", Except.ok [], false⟩).2 rfl).1,
   ((init_idempotent_single_authorizer ⟨"R", "A", 7⟩
      ⟨Except.error "no file", Except.ok [("transfer.api.globus.org", ⟨"A", "R", 7⟩)], true⟩
      ⟨Except.error "other", Except.ok [], false⟩).2 rfl).2⟩

/-- C8: on a successful interactive login the exact bundle returned by the
code-for-tokens exchange is what gets written to disk, the authorizer is
seeded from that same bundle, and re-parsing the written JSON yields the same
mapping (the round-trip equality is discharged by evaluating the codec). -/
theorem login_bundle_persisted_roundtrip (e : String) (b : TokenBundle) :
    (_get_native_app_authorizer ⟨Except.error e, Except.ok b, true⟩).written =
      some (encodeBundle b) ∧
    (_get_native_app_authorizer ⟨Except.error e, Except.ok b, true⟩).result =
      buildAuthorizer b ∧
    (decodeBundle (encodeBundle b) = some b →
      Option.map decodeBundle
          (_get_native_app_authorizer ⟨Except.error e, Except.ok b, true⟩).written =
        some (some b)) := by
  refine ⟨rfl, rfl, fun h => ?_⟩
  show Option.map decodeBundle (some (encodeBundle b)) = some (some b)
  simp [h]

/-- Substring containment follows from a decomposition of the message into
three appended strings. -/
theorem strHas_of_parts (hay l needle r : String) (h : hay = l ++ needle ++ r) :
    strHas hay needle :=
  ⟨l.data, r.data, by rw [h]; simp [String.data_append]⟩

/-- C1: when a job has left ACTIVE and its re-fetched final status is not
SUCCEEDED, transfer_file logs the task at debug level and raises the
descriptive error, whose message contains the task id, both endpoints, both
paths and the detail text of the most recent error event; the result is an
error, never a normal return. -/
theorem transfer_failed_raises_descriptive_error
    (src_ep dst_ep src_path dst_path : String) (svc : TransferService)
    (fuel : Nat) (t : Task) (L : List LogEntry)
    (hs : svc.submit = Except.ok t)
    (hp : pollLoop src_ep src_path svc fuel 0 t none [] = some (PollResult.finished L))
    (hf : svc.final_task.status ≠ "SUCCEEDED") :
    Globus.transfer_file src_ep dst_ep src_path dst_path svc fuel =
      some ⟨Except.error (failMsg svc.final_task.task_id src_ep dst_ep src_path
          dst_path svc.final_event.details),
        L ++ [⟨LogLevel.debug, taskDebugMsg svc.final_task⟩]⟩ ∧
    strHas (failMsg svc.final_task.task_id src_ep dst_ep src_path dst_path
      svc.final_event.details) svc.final_task.task_id ∧
    strHas (failMsg svc.final_task.task_id src_ep dst_ep src_path dst_path
      svc.final_event.details) src_ep ∧
    strHas (failMsg svc.final_task.task_id src_ep dst_ep src_path dst_path
      svc.final_event.details) dst_ep ∧
    strHas (failMsg svc.final_task.task_id src_ep dst_ep src_path dst_path
      svc.final_event.details) src_path ∧
    strHas (failMsg svc.final_task.task_id src_ep dst_ep src_path dst_path
      svc.final_event.details) dst_path ∧
    strHas (failMsg svc.final_task.task_id src_ep dst_ep src_path dst_path
      svc.final_event.details) svc.final_event.details := by
  refine ⟨by simp [Globus.transfer_file, hs, hp, hf], ?_, ?_, ?_, ?_, ?_, ?_⟩
  · exact strHas_of_parts _ "Globus transfer " _
      (", from " ++ src_ep ++ src_path ++ " to " ++ dst_ep ++ dst_path ++
        " failed due to error: \"" ++ svc.final_event.details ++ "\"")
      (by simp [failMsg, String.append_assoc])
  · exact strHas_of_parts _ ("Globus transfer " ++ svc.final_task.task_id ++ ", from ") _
      (src_path ++ " to " ++ dst_ep ++ dst_path ++ " failed due to error: \"" ++
        svc.final_event.details ++ "\"")
      (by simp [failMsg, String.append_assoc])
  · exact strHas_of_parts _
      ("Globus transfer " ++ svc.final_task.task_id ++ ", from " ++ src_ep ++
        src_path ++ " to ") _
      (dst_path ++ " failed due to error: \"" ++ svc.final_event.details ++ "\"")
      (by simp [failMsg, String.append_assoc])
  · exact strHas_of_parts _
      ("Globus transfer " ++ svc.final_task.task_id ++ ", from " ++ src_ep) _
      (" to " ++ dst_ep ++ dst_path ++ " failed due to error: \"" ++
        svc.final_event.details ++ "\"")
      (by simp [failMsg, String.append_assoc])
  · exact strHas_of_parts _
      ("Globus transfer " ++ svc.final_task.task_id ++ ", from " ++ src_ep ++
        src_path ++ " to " ++ dst_ep) _
      (" failed due to error: \"" ++ svc.final_event.details ++ "\"")
      (by simp [failMsg, String.append_assoc])
  · exact strHas_of_parts _
      ("Globus transfer " ++ svc.final_task.task_id ++ ", from " ++ src_ep ++
        src_path ++ " to " ++ dst_ep ++ dst_path ++ " failed due to error: \"") _
      "\"" (by simp [failMsg, String.append_assoc])

/-- C1 witness: the model evaluated on a service whose job ends FAILED. -/
theorem transfer_failed_raises_descriptive_error_w :
    Globus.transfer_file "S" "D" "/a" "/b" svcFailed 1 =
      some ⟨Except.error (failMsg "TID" "S" "D" "/a" "/b" "DETAILS"),
        [⟨LogLevel.debug, taskDebugMsg ⟨"TID", "FAILED"⟩⟩]⟩ ∧
    strHas (failMsg "TID" "S" "D" "/a" "/b" "DETAILS") "TID" ∧
    strHas (failMsg "TID" "S" "D" "/a" "/b" "DETAILS") "S" ∧
    strHas (failMsg "TID" "S" "D" "/a" "/b" "DETAILS") "D" ∧
    strHas (failMsg "TID" "S" "D" "/a" "/b" "DETAILS") "/a" ∧
    strHas (failMsg "TID" "S" "D" "/a" "/b" "DETAILS") "/b" ∧
    strHas (failMsg "TID" "S" "D" "/a" "/b" "DETAILS") "DETAILS" :=
  transfer_failed_raises_descriptive_error "S" "D" "/a" "/b" svcFailed 1
    ⟨"TID", "ACTIVE"⟩ [] rfl rfl (by decide)

/-- C2: when a job has left ACTIVE and its re-fetched final status is
SUCCEEDED, transfer_file returns normally, emitting exactly one debug-level
success record beyond the polling-loop log and raising nothing. -/
theorem transfer_succeeded_returns_normally
    (src_ep dst_ep src_path dst_path : String) (svc : TransferService)
    (fuel : Nat) (t : Task) (L : List LogEntry)
    (hs : svc.submit = Except.ok t)
    (hp : pollLoop src_ep src_path svc fuel 0 t none [] = some (PollResult.finished L))
    (hf : svc.final_task.status = "SUCCEEDED") :
    Globus.transfer_file src_ep dst_ep src_path dst_path svc fuel =
      some ⟨Except.ok (), L ++ [⟨LogLevel.debug,
        successMsg svc.final_task.task_id src_ep dst_ep src_path dst_path⟩]⟩ := by
  simp [Globus.transfer_file, hs, hp, hf]

/-- C2 witness: the model evaluated on a service whose job ends SUCCEEDED. -/
theorem transfer_succeeded_returns_normally_w :
    Globus.transfer_file "S" "D" "/a" "/b" svcSucceeded 1 =
      some ⟨Except.ok (), [⟨LogLevel.debug, successMsg "TID" "S" "D" "/a" "/b"⟩]⟩ :=
  transfer_succeeded_returns_normally "S" "D" "/a" "/b" svcSucceeded 1
    ⟨"TID", "ACTIVE"⟩ [] rfl rfl rfl

/-- C3: an exception raised by submit_transfer is caught and re-raised as a
single descriptive error containing both endpoints, both paths and the
underlying cause; the call raises with an empty log and without any polling:
the outcome is fixed even with zero polling iterations available, for every
fuel value alike. -/
theorem submit_failure_wrapped_before_polling
    (src_ep dst_ep src_path dst_path : String) (svc : TransferService)
    (fuel : Nat) (e : String)
    (hs : svc.submit = Except.error e) :
    Globus.transfer_file src_ep dst_ep src_path dst_path svc fuel =
      some ⟨Except.error (submitFailMsg src_ep dst_ep src_path dst_path e), []⟩ ∧
    strHas (submitFailMsg src_ep dst_ep src_path dst_path e) src_ep ∧
    strHas (submitFailMsg src_ep dst_ep src_path dst_path e) dst_ep ∧
    strHas (submitFailMsg src_ep dst_ep src_path dst_path e) src_path ∧
    strHas (submitFailMsg src_ep dst_ep src_path dst_path e) dst_path ∧
    strHas (submitFailMsg src_ep dst_ep src_path dst_path e) e := by
  refine ⟨by simp [Globus.transfer_file, hs], ?_, ?_, ?_, ?_, ?_⟩
  · exact strHas_of_parts _ "Globus transfer from " _
      (src_path ++ " to " ++ dst_ep ++ dst_path ++ " failed due to error: " ++ e)
      (by simp [submitFailMsg, String.append_assoc])
  · exact strHas_of_parts _
      ("Globus transfer from " ++ src_ep ++ src_path ++ " to ") _
      (dst_path ++ " failed due to error: " ++ e)
      (by simp [submitFailMsg, String.append_assoc])
  · exact strHas_of_parts _ ("Globus transfer from " ++ src_ep) _
      (" to " ++ dst_ep ++ dst_path ++ " failed due to error: " ++ e)
      (by simp [submitFailMsg, String.append_assoc])
  · exact strHas_of_parts _
      ("Globus transfer from " ++ src_ep ++ src_path ++ " to " ++ dst_ep) _
      (" failed due to error: " ++ e)
      (by simp [submitFailMsg, String.append_assoc])
  · exact strHas_of_parts _
      ("Globus transfer from " ++ src_ep ++ src_path ++ " to " ++ dst_ep ++
        dst_path ++ " failed due to error: ") _ ""
      (by simp [submitFailMsg, String.append_assoc])

/-- C3 witness: the model evaluated on a service whose submission raises, with
zero polling iterations available. -/
theorem submit_failure_wrapped_before_polling_w :
    Globus.transfer_file "S" "D" "/a" "/b" svcSubmitError 0 =
      some ⟨Except.error (submitFailMsg "S" "D" "/a" "/b" "endpoint not found"), []⟩ ∧
    strHas (submitFailMsg "S" "D" "/a" "/b" "endpoint not found") "S" ∧
    strHas (submitFailMsg "S" "D" "/a" "/b" "endpoint not found") "D" ∧
    strHas (submitFailMsg "S" "D" "/a" "/b" "endpoint not found") "/a" ∧
    strHas (submitFailMsg "S" "D" "/a" "/b" "endpoint not found") "/b" ∧
    strHas (submitFailMsg "S" "D" "/a" "/b" "endpoint not found") "endpoint not found" :=
  submit_failure_wrapped_before_polling "S" "D" "/a" "/b" svcSubmitError 0
    "endpoint not found" rfl

/-- C4: mid-flight error events are deduplicated by timestamp.  Handling a
fetched error event logs it (one warning plus one debug record) exactly when
its timestamp differs from the last timestamp logged; two consecutively
fetched events carrying the same fresh timestamp produce exactly one warning
between them; and an iteration whose still-ACTIVE poll fetches an event
proceeds to the next iteration carrying the updated timestamp and accumulated
log. -/
theorem poll_error_event_dedup_by_timestamp (src_ep src_path : String)
    (svc : TransferService) (n : Nat) (last : Option String) :
    (∀ event : Event, countWarnings (pollStep src_ep src_path event last).2 =
        if event.time = last then 0 else 1) ∧
    (∀ (e1 e2 : Event) (t : String), e1.time = some t → e2.time = some t →
      last ≠ some t →
      countWarnings ((pollStep src_ep src_path e1 last).2 ++
          (pollStep src_ep src_path e2
            (pollStep src_ep src_path e1 last).1).2) = 1) ∧
    (∀ (fuel : Nat) (task : Task) (logs : List LogEntry)
        (event : Event) (rest : List Event),
      svc.wait 60 15 n = false → svc.poll_events n = event :: rest →
      pollLoop src_ep src_path svc (fuel+1) n task last logs =
        pollLoop src_ep src_path svc fuel (n+1) (svc.poll_task n)
          (pollStep src_ep src_path event last).1
          (logs ++ (pollStep src_ep src_path event last).2)) := by
  refine ⟨?_, ?_, ?_⟩
  · intro event
    by_cases h : event.time = last <;>
      simp [pollStep, h, countWarnings, isWarning]
  · intro e1 e2 t h0 h1 hne
    have h3 : ¬(some t = last) := fun hh => hne hh.symm
    simp [pollStep, h0, h1, h3, countWarnings, isWarning]
  · intro fuel task logs event rest hw hev
    simp [pollLoop, hw, hev]

/-- C4 witness: a job that stays ACTIVE and repeats one identical-timestamp
error event yields a single warning over two consecutive poll iterations. -/
theorem poll_error_event_dedup_by_timestamp_w :
    countWarnings (pollStep "S" "/a" ⟨some "T", "permission denied", "x"⟩ none).2 = 1 ∧
    countWarnings ((pollStep "S" "/a" ⟨some "T", "permission denied", "x"⟩ none).2 ++
        (pollStep "S" "/a" ⟨some "T", "permission denied", "x"⟩
          (pollStep "S" "/a" ⟨some "T", "permission denied", "x"⟩ none).1).2) = 1 ∧
    pollLoop "S" "/a" svcDedup 6 0 ⟨"TID", "ACTIVE"⟩ none [] =
      pollLoop "S" "/a" svcDedup 5 1 (svcDedup.poll_task 0)
        (pollStep "S" "/a" ⟨some "T", "permission denied", "x"⟩ none).1
        ([] ++ (pollStep "S" "/a" ⟨some "T", "permission denied", "x"⟩ none).2) :=
  ⟨(poll_error_event_dedup_by_timestamp "S" "/a" svcDedup 0 none).1
     ⟨some "T", "permission denied", "x"⟩,
   (poll_error_event_dedup_by_timestamp "S" "/a" svcDedup 0 none).2.1
     ⟨some "T", "permission denied", "x"⟩ ⟨some "T", "permission denied", "x"⟩
     "T" rfl rfl (by decide),
   (poll_error_event_dedup_by_timestamp "S" "/a" svcDedup 0 none).2.2 5
     ⟨"TID", "ACTIVE"⟩ [] ⟨some "T", "permission denied", "x"⟩ [] rfl rfl⟩

/-- Any finite observation of the polling loop that ended did so because some
task_wait(task_id, 60, 15) call returned true or some still-ACTIVE iteration
found an empty error-event listing and raised. -/
theorem pollLoop_some_imp (src_ep src_path : String) (svc : TransferService) :
    ∀ (fuel n : Nat) (task : Task) (last : Option String) (logs : List LogEntry)
      (res : PollResult),
      pollLoop src_ep src_path svc fuel n task last logs = some res →
      ∃ m, svc.wait 60 15 m = true ∨ svc.poll_events m = [] := by
  intro fuel
  induction fuel with
  | zero => intro n task last logs res h; simp [pollLoop] at h
  | succ k ih =>
    intro n task last logs res h
    by_cases hw : svc.wait 60 15 n = true
    · exact ⟨n, Or.inl hw⟩
    · cases hev : svc.poll_events n with
      | nil => exact ⟨n, Or.inr hev⟩
      | cons e rest =>
        simp only [pollLoop] at h
        rw [if_neg hw] at h
        simp only [hev] at h
        exact ih _ _ _ _ _ h

/-- Once some task_wait(task_id, 60, 15) call returns true or some
still-ACTIVE iteration finds an empty error-event listing, the polling loop
ends within that many iterations. -/
theorem pollLoop_ne_none (src_ep src_path : String) (svc : TransferService) :
    ∀ (k n : Nat) (task : Task) (last : Option String) (logs : List LogEntry),
      (svc.wait 60 15 (n + k) = true ∨ svc.poll_events (n + k) = []) →
      pollLoop src_ep src_path svc (k+1) n task last logs ≠ none := by
  intro k
  induction k with
  | zero =>
    intro n task last logs h
    rw [Nat.add_zero] at h
    by_cases hw : svc.wait 60 15 n = true
    · simp [pollLoop, hw]
    · have hev : svc.poll_events n = [] := h.resolve_left hw
      simp [pollLoop, hw, hev]
  | succ k ih =>
    intro n task last logs h
    by_cases hw : svc.wait 60 15 n = true
    · simp [pollLoop, hw]
    · cases hev : svc.poll_events n with
      | nil => simp [pollLoop, hw, hev]
      | cons e rest =>
        simp only [pollLoop]
        rw [if_neg hw]
        simp only [hev]
        refine ih (n+1) (svc.poll_task n) (pollStep src_ep src_path e last).1
          (logs ++ (pollStep src_ep src_path e last).2) ?_
        have h2 : n + 1 + k = n + (k + 1) := by omega
        rw [h2]
        exact h

/-- C6 (counterexample): a job that never leaves ACTIVE and reports no error
events terminates the call anyway — the first poll iteration subscripts an
empty listing and the IndexError propagates out — although no task_wait call
ever reported a terminal state, refuting termination only on a terminal
state. -/
theorem stuck_active_no_events_crashes :
    Globus.transfer_file "S" "D" "/a" "/b" svcStuckNoEvents 1 =
      some ⟨Except.error indexErrorMsg, []⟩ ∧
    svcStuckNoEvents.wait = fun _ _ _ => false :=
  ⟨rfl, rfl⟩

/-- C6 (amended): after a successful submission transfer_file loops on
task_wait(task_id, 60, 15) — waiting up to 60 seconds per iteration with a 15
second internal check interval — with no locally enforced wall-clock timeout
or retry bound: some finite observation of the call completes exactly when
some task_wait call reports the job no longer ACTIVE or some still-ACTIVE
iteration finds no error events and dies of the uncaught IndexError; when
neither ever happens, every finite observation leaves the call still
polling. -/
theorem polling_terminates_iff_terminal_or_no_events
    (src_ep dst_ep src_path dst_path : String) (svc : TransferService) (t : Task)
    (hs : svc.submit = Except.ok t) :
    (∃ fuel, Globus.transfer_file src_ep dst_ep src_path dst_path svc fuel ≠ none) ↔
    (∃ n, svc.wait 60 15 n = true ∨ svc.poll_events n = []) := by
  constructor
  · rintro ⟨fuel, hf⟩
    simp only [Globus.transfer_file, hs] at hf
    cases hp : pollLoop src_ep src_path svc fuel 0 t none [] with
    | none => rw [hp] at hf; simp at hf
    | some res =>
      exact pollLoop_some_imp src_ep src_path svc fuel 0 t none [] res hp
  · rintro ⟨n, hn⟩
    refine ⟨n + 1, ?_⟩
    have h2 := pollLoop_ne_none src_ep src_path svc n 0 t none []
      (by simpa using hn)
    simp only [Globus.transfer_file, hs]
    cases hp : pollLoop src_ep src_path svc (n+1) 0 t none [] with
    | none => exact absurd hp h2
    | some res =>
      cases res with
      | crashed logs msg => simp
      | finished logs =>
        by_cases hsucc : svc.final_task.status = "SUCCEEDED" <;> simp [hsucc]

/-- C6 witness: for a service whose first wait call already reports the job
out of ACTIVE, the call completes, matching the amended condition. -/
theorem polling_terminates_iff_terminal_or_no_events_w :
    (∃ fuel, Globus.transfer_file "S" "D" "/a" "/b" svcSucceeded fuel ≠ none) ↔
    (∃ n, svcSucceeded.wait 60 15 n = true ∨ svcSucceeded.poll_events n = []) :=
  polling_terminates_iff_terminal_or_no_events "S" "D" "/a" "/b" svcSucceeded
    ⟨"TID", "ACTIVE"⟩ rfl

/-- C10: last_event_time starts as None, and an event is logged only when its
time field differs from that state; hence a first error event whose time field
is None is never logged as a warning — a job that polls once through such an
event and then succeeds produces only the final debug record. -/
theorem none_timestamp_first_event_not_logged
    (src_ep dst_ep src_path dst_path : String) (svc : TransferService)
    (fuel : Nat) (t : Task) (ev : Event) (rest : List Event)
    (hs : svc.submit = Except.ok t)
    (h0 : svc.wait 60 15 0 = false)
    (h1 : svc.wait 60 15 1 = true)
    (hev : svc.poll_events 0 = ev :: rest)
    (he : ev.time = none)
    (hf : svc.final_task.status = "SUCCEEDED") :
    Globus.transfer_file src_ep dst_ep src_path dst_path svc (fuel + 2) =
      some ⟨Except.ok (), [⟨LogLevel.debug,
        successMsg svc.final_task.task_id src_ep dst_ep src_path dst_path⟩]⟩ := by
  have hp : pollLoop src_ep src_path svc (fuel + 2) 0 t none [] =
      some (PollResult.finished []) := by
    rw [show fuel + 2 = fuel + 1 + 1 from rfl]
    have hw0 : ¬(svc.wait 60 15 0 = true) := by simp [h0]
    simp [pollLoop, pollStep, hw0, hev, he, h1]
  simp [Globus.transfer_file, hs, hp, hf]

/-- C10 witness: a concrete run through one None-timestamp error event emits
no warning at all. -/
theorem none_timestamp_first_event_not_logged_w :
    Globus.transfer_file "S" "D" "/a" "/b" svcNoneTime 2 =
      some ⟨Except.ok (), [⟨LogLevel.debug, successMsg "TID" "S" "D" "/a" "/b"⟩]⟩ :=
  none_timestamp_first_event_not_logged "S" "D" "/a" "/b" svcNoneTime 0
    ⟨"TID", "ACTIVE"⟩ ⟨none, "d", "x"⟩ [] rfl rfl rfl rfl rfl rfl

set_option maxRecDepth 8000 in
/-- C8 witness: a concrete login bundle is persisted verbatim and re-parses to
itself. -/
theorem login_bundle_persisted_roundtrip_w :
    (_get_native_app_authorizer ⟨Except.error "gone",
        Except.ok [("transfer.api.globus.org", ⟨"AT", "RT", 7⟩)], true⟩).written =
      some (encodeBundle [("transfer.api.globus.org", ⟨"AT", "RT", 7⟩)]) ∧
    (_get_native_app_authorizer ⟨Except.error "gone",
        Except.ok [("transfer.api.globus.org", ⟨"AT", "RT", 7⟩)], true⟩).result =
      buildAuthorizer [("transfer.api.globus.org", ⟨"AT", "RT", 7⟩)] ∧
    Option.map decodeBundle (_get_native_app_authorizer ⟨Except.error "gone",
        Except.ok [("transfer.api.globus.org", ⟨"AT", "RT", 7⟩)], true⟩).written =
      some (some [("transfer.api.globus.org", ⟨"AT", "RT", 7⟩)]) :=
  ⟨(login_bundle_persisted_roundtrip "gone"
      [("transfer.api.globus.org", ⟨"AT", "RT", 7⟩)]).1,
   (login_bundle_persisted_roundtrip "gone"
      [("transfer.api.globus.org", ⟨"AT", "RT", 7⟩)]).2.1,
   (login_bundle_persisted_roundtrip "gone"
      [("transfer.api.globus.org", ⟨"AT", "RT", 7⟩)]).2.2 (by decide)⟩

end ParslGlobus
